import Mathlib

/-!
# Verification of `client/commands/start.py` (`Start._run`)

Shallow embedding of the pyre client `start` command's coordination logic:

* the flag-assembly code (lines 48–75 of `start.py`) is embedded as pure
  functions over the configuration values it reads;
* the double-lock protocol of `Start._run` (the `while True` loop with the
  nested `filesystem.acquire_lock` scopes) is embedded as a labelled
  transition system over `n` concurrent processes, each running the body of
  `_run`, together with the two advisory locks.

`filesystem.acquire_lock` and the `Configuration` accessors are not part of
the sources; their interfaces are modelled from the specification (see the
doc comments on `Ev` and `Configuration`).
-/

namespace PyreStart

/-! ## Python value helpers -/

/-- Python's `str()` applied to an optional string value: `str(None)`
is the literal string `"None"`. -/
def pyStrOptString : Option String → String
  | none => "None"
  | some s => s

/-- Python's `str()` applied to an optional integer value: `str(None)`
is the literal string `"None"`, and `str` of an int is its decimal form. -/
def pyStrOptInt : Option Int → String
  | none => "None"
  | some n => toString n

/-- Python's `",".join(l)`. -/
def commaJoin (l : List String) : String := String.intercalate "," l

/-- `posixpath.join` of two components, as used by `os.path.join` in
`Start._run`: if `b` is absolute (`b.startswith('/')`, i.e. its first
character is `'/'`) the result is `b`; otherwise `b` is appended to `a`,
inserting a `'/'` unless `a` is empty or already ends with one
(`a.endswith('/')`, i.e. its last character is `'/'`). -/
def osPathJoin (a b : String) : String :=
  if b.data.head? = some '/' then b
  else if a = "" ∨ a.data.getLast? = some '/' then a ++ b
  else a ++ "/" ++ b

/-! ## Lock paths

`Start._run` acquires `".pyre/client.lock"` (a relative path, resolved by
the OS against the process's working directory) and
`os.path.join(self._source_directory, ".pyre", "server", "server.lock")`. -/

/-- The start-coordination (client) lock path passed to
`filesystem.acquire_lock` on line 31 of `start.py`: the fixed relative
string `".pyre/client.lock"`. -/
def clientLockPath : String := ".pyre/client.lock"

/-- The server-liveness lock path passed to `filesystem.acquire_lock` on
lines 36–40 of `start.py`:
`os.path.join(source_directory, ".pyre", "server", "server.lock")`. -/
def serverLockPath (source_directory : String) : String :=
  osPathJoin (osPathJoin (osPathJoin source_directory ".pyre") "server") "server.lock"

/-- Resolution of a path against the process's current working directory,
as the OS does for relative paths handed to `open(2)`. -/
def resolveAgainst (cwd p : String) : String :=
  if p.data.head? = some '/' then p else osPathJoin cwd p

/-! ## Configuration and flag assembly

The configuration accessors (`number_of_workers`, `get_typeshed()`,
`get_version_hash()`, `get_search_path()`) are not in the sources.
Modelled from the spec: the configuration provider exposes a worker count,
a typeshed path, a version hash and a (possibly empty) search-path list.
The first three are carried as `Option` values so that the behaviour of the
unconditional `str(...)` conversions in `Start._run` on an absent (`None`)
value is captured. -/
structure Configuration where
  number_of_workers : Option Int
  typeshed : Option String
  version_hash : Option String
  search_path : List String

/-- The per-command arguments read by `Start.__init__` / `Start._run`. -/
structure StartArgs where
  source_directory : String
  terminal : Bool
  no_watchman : Bool

/-- Lines 52–58 of `start.py`: the `-filter-directories` flag is appended
exactly when `len(filter_directories) > 1 and
filter_directories.issuperset({self._source_directory})`; its value is
`",".join(list(filter_directories))`.  The Python set `filter_directories`
is modelled as the list of its elements in iteration order, and
`issuperset({sd})` as the list-subset `[sd] ⊆ fd`. -/
def filterDirectoriesFlags (source_directory : String) (fd : List String) :
    List String :=
  if 1 < fd.length ∧ [source_directory] ⊆ fd then
    ["-filter-directories", commaJoin fd]
  else []

/-- Lines 59–60 of `start.py`: `-use-watchman` is appended unless
`self._no_watchman` is set. -/
def watchmanFlags (no_watchman : Bool) : List String :=
  if no_watchman then [] else ["-use-watchman"]

/-- Lines 61–62 of `start.py`: `-terminal` is appended when
`self._terminal` is set. -/
def terminalFlags (terminal : Bool) : List String :=
  if terminal then ["-terminal"] else []

/-- Lines 63–72 of `start.py`: the worker-count, typeshed and
expected-binary-version flags are appended unconditionally, each value
going through Python's `str(...)`. -/
def coreFlags (workers : Option Int) (typeshed version_hash : Option String) :
    List String :=
  ["-workers", pyStrOptInt workers,
   "-typeshed", pyStrOptString typeshed,
   "-expected-binary-version", pyStrOptString version_hash]

/-- Lines 73–75 of `start.py`: `-search-path` is appended when the
configured search-path list is truthy (non-empty), with the list joined by
commas. -/
def searchPathFlags (search_path : List String) : List String :=
  if search_path = [] then []
  else ["-search-path", commaJoin search_path]

/-- The full flag list assembled by `Start._run` (lines 48–75), starting
from the base flags returned by `self._flags()` and appending the segments
in source order. -/
def startFlags (args : StartArgs) (cfg : Configuration) (base : List String)
    (filter_directories : List String) : List String :=
  base
    ++ filterDirectoriesFlags args.source_directory filter_directories
    ++ watchmanFlags args.no_watchman
    ++ terminalFlags args.terminal
    ++ coreFlags cfg.number_of_workers cfg.typeshed cfg.version_hash
    ++ searchPathFlags cfg.search_path

/-! ## The coordination protocol as a transition system

`Start._run` is the loop

```
while True:
    blocking = False
    try:
        with filesystem.acquire_lock(".pyre/client.lock", blocking):
            try:
                with filesystem.acquire_lock(<server.lock>, blocking=False):
                    pass
            except OSError:
                LOG.warning("Server at `%s` exists, skipping.", sd)
                return FAILURE
            ... build flags ...
            self._call_client(command=self.NAME, flags=flags).check()
            return SUCCESS
    except OSError:
        blocking = True
        LOG.info("Waiting on the pyre client lock.")
```

Each of `n` processes runs this body; the two advisory locks are shared.
`filesystem.acquire_lock` is not in the sources; modelled from the spec:
a non-blocking acquisition raises on contention (`ResourceBusy`), a
blocking one waits, and either mode may raise an OS-level
`ResourceUnavailable`; both error kinds are `OSError`s in Python, so both
are caught by the `except OSError` clauses of `Start._run`. -/

/-- The two exit-code constants imported by `start.py`
(`from .. import FAILURE, SUCCESS`). -/
inductive ExitCode where
  | SUCCESS
  | FAILURE
deriving DecidableEq

/-- Program points of one process executing the body of `Start._run`. -/
inductive PC where
  /-- top of the `while True` loop, about to execute `blocking = False` -/
  | loopTop
  /-- about to call `acquire_lock(".pyre/client.lock", blocking)` -/
  | acquireClient
  /-- holding the client lock, about to probe the server lock -/
  | probe
  /-- inside the inner `with`: holding both locks, body is `pass` -/
  | probeHeld
  /-- past the probe (server lock released), building the flag list -/
  | buildFlags
  /-- about to run `self._call_client(...).check()` -/
  | callClient
  /-- returned from `_run` with the given exit code -/
  | done (code : ExitCode)
  /-- a non-`OSError` exception (launcher failure) propagated out of `_run` -/
  | fatal
deriving DecidableEq

/-- Local state of one process: its program point, the `blocking` local
variable, and observation counters: how many times it logged
`"Waiting on the pyre client lock."` (`infoLogs`), the arguments of its
`"Server at %s exists, skipping."` warnings (`warnings`), and how many
times it invoked the external launcher `_call_client` (`launches`). -/
structure ProcState where
  pc : PC
  blocking : Bool
  infoLogs : Nat
  warnings : List String
  launches : Nat
deriving DecidableEq

/-- A holder of the server lock: a coordinating process mid-probe, or the
running server itself. -/
inductive Owner (n : Nat) where
  | proc (i : Fin n)
  | server
deriving DecidableEq

/-- Global state of the shared-working-directory semantics: the local
state of each of the `n` processes and the holders (if any) of the two
advisory locks.  The client-lock path `".pyre/client.lock"` is relative
and resolved by the OS against each process's working directory; this
state models the special case in which all `n` attempts run from one
common working directory, so they contend on a single client-lock file
(`clientLock`).  `WSysState`/`WStep` below generalize to per-process
working directories with client locks keyed by resolved path. -/
structure SysState (n : Nat) where
  procs : Fin n → ProcState
  clientLock : Option (Fin n)
  serverLock : Option (Owner n)

/-- Replace the local state of process `i`. -/
def setProc {n : Nat} (s : SysState n) (i : Fin n) (p : ProcState) : SysState n :=
  { s with procs := Function.update s.procs i p }

/-- The local effect of the outer `except OSError` handler:
`blocking = True; LOG.info("Waiting on the pyre client lock.")`, then the
loop continues from the top. -/
def exceptClient (p : ProcState) : ProcState :=
  { p with pc := PC.loopTop, blocking := true, infoLogs := p.infoLogs + 1 }

/-- Events labelling the transitions of one process (the acting process is
the `Fin n` argument). The `Busy` and `Unavail` events are the two error
kinds of `filesystem.acquire_lock` modelled from the spec: contention
(`ResourceBusy`) and any other OS-level failure (`ResourceUnavailable`);
`buildOSError` / `callOSError` are OS errors raised by flag assembly /
configuration access / the launcher call. -/
inductive Ev (n : Nat) where
  | resetBlocking (i : Fin n)
  | acquireClientOk (i : Fin n)
  | acquireClientBusy (i : Fin n)
  | acquireClientUnavail (i : Fin n)
  | probeOk (i : Fin n)
  | probeBusy (i : Fin n)
  | probeUnavail (i : Fin n)
  | releaseServer (i : Fin n)
  | buildOk (i : Fin n)
  | buildOSError (i : Fin n)
  | callOk (i : Fin n)
  | callOSError (i : Fin n)
  | callFail (i : Fin n)

/-- One interleaved step of the shared-working-directory semantics: some
process executes the next piece of the `Start._run` body. `sd` is
`self._source_directory`, common to all processes (they coordinate on the
same project), and all processes run from one working directory, so the
relative client-lock path resolves to the same file for all of them (see
`WStep` for the general, per-working-directory semantics). Lock release
is by scope exit of the `with` statements, on every exit path. -/
inductive Step {n : Nat} (sd : String) : Ev n → SysState n → SysState n → Prop where
  /-- `blocking = False` at the top of the loop. -/
  | resetBlocking (s : SysState n) (i : Fin n)
      (h : (s.procs i).pc = PC.loopTop) :
      Step sd (Ev.resetBlocking i) s
        (setProc s i { s.procs i with pc := PC.acquireClient, blocking := false })
  /-- The client lock is free: acquisition succeeds (either mode). -/
  | acquireClientOk (s : SysState n) (i : Fin n)
      (h : (s.procs i).pc = PC.acquireClient) (hl : s.clientLock = none) :
      Step sd (Ev.acquireClientOk i) s
        { setProc s i { s.procs i with pc := PC.probe } with clientLock := some i }
  /-- Non-blocking acquisition of a held client lock raises `ResourceBusy`
  (an `OSError`), caught by the outer handler. A blocking acquisition
  never raises this: it simply waits (no step until the lock is free). -/
  | acquireClientBusy (s : SysState n) (i : Fin n)
      (h : (s.procs i).pc = PC.acquireClient)
      (hb : (s.procs i).blocking = false) (hl : s.clientLock ≠ none) :
      Step sd (Ev.acquireClientBusy i) s (setProc s i (exceptClient (s.procs i)))
  /-- An OS-level `ResourceUnavailable` on the client lock: also an
  `OSError`, caught by the same outer handler. -/
  | acquireClientUnavail (s : SysState n) (i : Fin n)
      (h : (s.procs i).pc = PC.acquireClient) :
      Step sd (Ev.acquireClientUnavail i) s (setProc s i (exceptClient (s.procs i)))
  /-- The server lock is free: the non-blocking probe acquires it. -/
  | probeOk (s : SysState n) (i : Fin n)
      (h : (s.procs i).pc = PC.probe) (hs : s.serverLock = none) :
      Step sd (Ev.probeOk i) s
        { setProc s i { s.procs i with pc := PC.probeHeld } with
            serverLock := some (Owner.proc i) }
  /-- The server lock is held: the probe raises `ResourceBusy`, the inner
  handler logs the warning naming the project directory and `_run` returns
  `FAILURE`; the client lock is released on scope exit. -/
  | probeBusy (s : SysState n) (i : Fin n)
      (h : (s.procs i).pc = PC.probe) (hs : s.serverLock ≠ none) :
      Step sd (Ev.probeBusy i) s
        { setProc s i { s.procs i with pc := PC.done ExitCode.FAILURE, warnings := (s.procs i).warnings ++ [sd] } with clientLock := none }
  /-- An OS-level failure on the probe: also an `OSError`, taken by the
  same inner handler (warning, `return FAILURE`). -/
  | probeUnavail (s : SysState n) (i : Fin n)
      (h : (s.procs i).pc = PC.probe) :
      Step sd (Ev.probeUnavail i) s
        { setProc s i { s.procs i with pc := PC.done ExitCode.FAILURE, warnings := (s.procs i).warnings ++ [sd] } with clientLock := none }
  /-- The inner `with` body is `pass`: the server lock is released
  immediately, before flag assembly. -/
  | releaseServer (s : SysState n) (i : Fin n)
      (h : (s.procs i).pc = PC.probeHeld) :
      Step sd (Ev.releaseServer i) s
        { setProc s i { s.procs i with pc := PC.buildFlags } with serverLock := none }
  /-- Flag assembly (lines 48–75) completes without error. -/
  | buildOk (s : SysState n) (i : Fin n)
      (h : (s.procs i).pc = PC.buildFlags) :
      Step sd (Ev.buildOk i) s
        (setProc s i { s.procs i with pc := PC.callClient })
  /-- An `OSError` from flag assembly or configuration access: the client
  lock is released by scope exit of the outer `with` as the exception
  propagates, and the outer handler catches it. -/
  | buildOSError (s : SysState n) (i : Fin n)
      (h : (s.procs i).pc = PC.buildFlags) :
      Step sd (Ev.buildOSError i) s
        { setProc s i (exceptClient (s.procs i)) with clientLock := none }
  /-- `self._call_client(...).check()` succeeds: `return SUCCESS`,
  client lock released on scope exit. -/
  | callOk (s : SysState n) (i : Fin n)
      (h : (s.procs i).pc = PC.callClient) :
      Step sd (Ev.callOk i) s
        { setProc s i { s.procs i with pc := PC.done ExitCode.SUCCESS, launches := (s.procs i).launches + 1 } with clientLock := none }
  /-- An `OSError` from the launcher call: caught by the outer handler
  after the client lock is released by scope exit. -/
  | callOSError (s : SysState n) (i : Fin n)
      (h : (s.procs i).pc = PC.callClient) :
      Step sd (Ev.callOSError i) s
        { setProc s i { exceptClient (s.procs i) with launches := (s.procs i).launches + 1 } with clientLock := none }
  /-- The launcher reports failure: `check()` raises a non-`OSError`
  exception, which propagates out of `_run` (locks released on the way). -/
  | callFail (s : SysState n) (i : Fin n)
      (h : (s.procs i).pc = PC.callClient) :
      Step sd (Ev.callFail i) s
        { setProc s i { s.procs i with pc := PC.fatal, launches := (s.procs i).launches + 1 } with clientLock := none }

/-- Initial local state: at the top of the loop, nothing logged, nothing
launched. -/
def initProc : ProcState :=
  { pc := PC.loopTop, blocking := false, infoLogs := 0, warnings := [], launches := 0 }

/-- Initial system state: `n` processes about to run `_run`, client lock
free; the server lock is held by an already-running server exactly when
`serverRunning` is set. -/
def initState (n : Nat) (serverRunning : Bool) : SysState n :=
  { procs := fun _ => initProc
    clientLock := none
    serverLock := if serverRunning then some Owner.server else none }

/-- Reachability from `s0` by interleaved steps of the `n` processes. -/
inductive Reach {n : Nat} (sd : String) (s0 : SysState n) : SysState n → Prop where
  | refl : Reach sd s0 s0
  | tail {s s' : SysState n} {e : Ev n} :
      Reach sd s0 s → Step sd e s s' → Reach sd s0 s'

/-- The probe-and-launch critical section: the program points at which a
process holds the start (client) lock. -/
def InCrit (pc : PC) : Prop :=
  pc = PC.probe ∨ pc = PC.probeHeld ∨ pc = PC.buildFlags ∨ pc = PC.callClient

instance : DecidablePred InCrit := fun pc => by
  unfold InCrit; infer_instance

/-! ## The lock invariant -/

/-- The inductive invariant tying program points to lock ownership:
a process inside the probe-and-launch section owns the client lock, and
the server lock is held by a coordinating process exactly while that
process sits inside the inner `with` (between acquisition and the scope
exit of the `pass` body). -/
structure LockInv {n : Nat} (s : SysState n) : Prop where
  crit_owns : ∀ i, InCrit ((s.procs i).pc) → s.clientLock = some i
  server_probe : ∀ i, s.serverLock = some (Owner.proc i) → (s.procs i).pc = PC.probeHeld
  probe_server : ∀ i, (s.procs i).pc = PC.probeHeld → s.serverLock = some (Owner.proc i)

/-! ## Runs that start while a server already holds the server lock -/

/-- Invariant of every run that starts with the server lock held by a
running server: the server lock stays held by the server, no process ever
passes the probe (so the launcher is never invoked), and a finished
process has returned `FAILURE` after logging exactly the one warning that
names the project directory. -/
structure ServerHeldInv {n : Nat} (sd : String) (s : SysState n) : Prop where
  slock : s.serverLock = some Owner.server
  pcs : ∀ i, (s.procs i).pc = PC.loopTop ∨ (s.procs i).pc = PC.acquireClient ∨
      (s.procs i).pc = PC.probe ∨ (s.procs i).pc = PC.done ExitCode.FAILURE
  launch0 : ∀ i, (s.procs i).launches = 0
  warn_done : ∀ i, (s.procs i).pc = PC.done ExitCode.FAILURE → (s.procs i).warnings = [sd]
  warn_pending : ∀ i, (s.procs i).pc ≠ PC.done ExitCode.FAILURE → (s.procs i).warnings = []

/-! ## Concrete runs

Run A: two processes, no server running. Process 0 takes the client lock
and completes a full start; process 1 contends twice (hitting the retry
handler twice), then, after process 0 has finished, takes the client lock
and probes the (released) server lock successfully.

Run B: one process, a server already holds the server lock.

Run C: one process; the client-lock acquisition fails with the
OS-level (`ResourceUnavailable`) error.

Run D: one process, no server; flag assembly raises an `OSError` while
the client lock is held. -/

/-- Project directory used by the concrete runs. -/
def demoDir : String := "/proj"

def stA0 : SysState 2 := initState 2 false

def stA1 : SysState 2 :=
  setProc stA0 0 { stA0.procs 0 with pc := PC.acquireClient, blocking := false }

def stA2 : SysState 2 :=
  { setProc stA1 0 { stA1.procs 0 with pc := PC.probe } with clientLock := some 0 }

def stA3 : SysState 2 :=
  setProc stA2 1 { stA2.procs 1 with pc := PC.acquireClient, blocking := false }

def stA4 : SysState 2 := setProc stA3 1 (exceptClient (stA3.procs 1))

def stA5 : SysState 2 :=
  setProc stA4 1 { stA4.procs 1 with pc := PC.acquireClient, blocking := false }

def stA6 : SysState 2 := setProc stA5 1 (exceptClient (stA5.procs 1))

def stA7 : SysState 2 :=
  { setProc stA6 0 { stA6.procs 0 with pc := PC.probeHeld } with serverLock := some (Owner.proc 0) }

def stA8 : SysState 2 :=
  { setProc stA7 0 { stA7.procs 0 with pc := PC.buildFlags } with serverLock := none }

def stA9 : SysState 2 := setProc stA8 0 { stA8.procs 0 with pc := PC.callClient }

def stA10 : SysState 2 :=
  { setProc stA9 0 { stA9.procs 0 with pc := PC.done ExitCode.SUCCESS, launches := (stA9.procs 0).launches + 1 } with clientLock := none }

def stA11 : SysState 2 :=
  setProc stA10 1 { stA10.procs 1 with pc := PC.acquireClient, blocking := false }

def stA12 : SysState 2 :=
  { setProc stA11 1 { stA11.procs 1 with pc := PC.probe } with clientLock := some 1 }

def stA13 : SysState 2 :=
  { setProc stA12 1 { stA12.procs 1 with pc := PC.probeHeld } with serverLock := some (Owner.proc 1) }

def stB0 : SysState 1 := initState 1 true

def stB1 : SysState 1 :=
  setProc stB0 0 { stB0.procs 0 with pc := PC.acquireClient, blocking := false }

def stB2 : SysState 1 :=
  { setProc stB1 0 { stB1.procs 0 with pc := PC.probe } with clientLock := some 0 }

def stB3 : SysState 1 :=
  { setProc stB2 0 { stB2.procs 0 with pc := PC.done ExitCode.FAILURE, warnings := (stB2.procs 0).warnings ++ [demoDir] } with clientLock := none }

def stC0 : SysState 1 := initState 1 false

def stC1 : SysState 1 :=
  setProc stC0 0 { stC0.procs 0 with pc := PC.acquireClient, blocking := false }

def stC2 : SysState 1 := setProc stC1 0 (exceptClient (stC1.procs 0))

def stD2 : SysState 1 :=
  { setProc stC1 0 { stC1.procs 0 with pc := PC.probe } with clientLock := some 0 }

def stD3 : SysState 1 :=
  { setProc stD2 0 { stD2.procs 0 with pc := PC.probeHeld } with serverLock := some (Owner.proc 0) }

def stD4 : SysState 1 :=
  { setProc stD3 0 { stD3.procs 0 with pc := PC.buildFlags } with serverLock := none }

def stD5 : SysState 1 :=
  { setProc stD4 0 (exceptClient (stD4.procs 0)) with clientLock := none }

/-- Run E: like run D up to the probe, but the server-lock probe itself
raises an OS-level error while the client lock is held: the inner handler
catches it, logs the server-exists warning, and `_run` returns `FAILURE`
(the outer handler and its waiting notice are never reached). -/
def stE3 : SysState 1 :=
  { setProc stD2 0 { stD2.procs 0 with pc := PC.done ExitCode.FAILURE, warnings := (stD2.procs 0).warnings ++ [demoDir] } with clientLock := none }

/-! ## The working-directory-aware semantics

The client-lock path handed to `acquire_lock` is the relative string
`".pyre/client.lock"`, which the OS resolves against the acquiring
process's current working directory, while the server-lock path is joined
onto `self._source_directory`.  `SysState`/`Step` above model the special
case in which every attempt runs from one common working directory (so
all attempts contend on one client-lock file).  The semantics below drops
that assumption: each process `i` has its own working directory `cwd i`,
and the client locks are keyed by the resolved lock-file path, so two
processes contend on the same client lock exactly when their working
directories resolve the relative path to the same file.  The server lock
is still a single lock: all processes coordinate on the same project
`sd`. -/

/-- The client-lock file a process contends on: `".pyre/client.lock"`
resolved against that process's working directory. -/
def clientLockFile (cwd : String) : String := resolveAgainst cwd clientLockPath

/-- Global state of the working-directory-aware semantics: the processes,
the holder (if any) of the client-lock file at each path, and the holder
of the project's server lock. -/
structure WSysState (n : Nat) where
  procs : Fin n → ProcState
  clientLocks : String → Option (Fin n)
  serverLock : Option (Owner n)

/-- Replace the local state of process `i`. -/
def setWProc {n : Nat} (s : WSysState n) (i : Fin n) (p : ProcState) : WSysState n :=
  { s with procs := Function.update s.procs i p }

/-- Set the holder of the client-lock file at `path`. -/
def setWLock {n : Nat} (s : WSysState n) (path : String) (v : Option (Fin n)) :
    WSysState n :=
  { s with clientLocks := Function.update s.clientLocks path v }

/-- Initial state: every process at the top of the loop, all client-lock
files free; the server lock is held by a running server exactly when
`serverRunning` is set. -/
def winit (n : Nat) (serverRunning : Bool) : WSysState n :=
  { procs := fun _ => initProc
    clientLocks := fun _ => none
    serverLock := if serverRunning then some Owner.server else none }

/-- One interleaved step of the working-directory-aware semantics: the
same transitions as `Step`, except that process `i` acquires and releases
the client lock at `clientLockFile (cwd i)` — the file its own working
directory resolves `".pyre/client.lock"` to. -/
inductive WStep {n : Nat} (sd : String) (cwd : Fin n → String) :
    Ev n → WSysState n → WSysState n → Prop where
  | resetBlocking (s : WSysState n) (i : Fin n)
      (h : (s.procs i).pc = PC.loopTop) :
      WStep sd cwd (Ev.resetBlocking i) s
        (setWProc s i { s.procs i with pc := PC.acquireClient, blocking := false })
  | acquireClientOk (s : WSysState n) (i : Fin n)
      (h : (s.procs i).pc = PC.acquireClient)
      (hl : s.clientLocks (clientLockFile (cwd i)) = none) :
      WStep sd cwd (Ev.acquireClientOk i) s
        (setWLock (setWProc s i { s.procs i with pc := PC.probe }) (clientLockFile (cwd i)) (some i))
  | acquireClientBusy (s : WSysState n) (i : Fin n)
      (h : (s.procs i).pc = PC.acquireClient)
      (hb : (s.procs i).blocking = false)
      (hl : s.clientLocks (clientLockFile (cwd i)) ≠ none) :
      WStep sd cwd (Ev.acquireClientBusy i) s (setWProc s i (exceptClient (s.procs i)))
  | acquireClientUnavail (s : WSysState n) (i : Fin n)
      (h : (s.procs i).pc = PC.acquireClient) :
      WStep sd cwd (Ev.acquireClientUnavail i) s (setWProc s i (exceptClient (s.procs i)))
  | probeOk (s : WSysState n) (i : Fin n)
      (h : (s.procs i).pc = PC.probe) (hs : s.serverLock = none) :
      WStep sd cwd (Ev.probeOk i) s
        { setWProc s i { s.procs i with pc := PC.probeHeld } with serverLock := some (Owner.proc i) }
  | probeBusy (s : WSysState n) (i : Fin n)
      (h : (s.procs i).pc = PC.probe) (hs : s.serverLock ≠ none) :
      WStep sd cwd (Ev.probeBusy i) s
        (setWLock (setWProc s i { s.procs i with pc := PC.done ExitCode.FAILURE, warnings := (s.procs i).warnings ++ [sd] }) (clientLockFile (cwd i)) none)
  | probeUnavail (s : WSysState n) (i : Fin n)
      (h : (s.procs i).pc = PC.probe) :
      WStep sd cwd (Ev.probeUnavail i) s
        (setWLock (setWProc s i { s.procs i with pc := PC.done ExitCode.FAILURE, warnings := (s.procs i).warnings ++ [sd] }) (clientLockFile (cwd i)) none)
  | releaseServer (s : WSysState n) (i : Fin n)
      (h : (s.procs i).pc = PC.probeHeld) :
      WStep sd cwd (Ev.releaseServer i) s
        { setWProc s i { s.procs i with pc := PC.buildFlags } with serverLock := none }
  | buildOk (s : WSysState n) (i : Fin n)
      (h : (s.procs i).pc = PC.buildFlags) :
      WStep sd cwd (Ev.buildOk i) s (setWProc s i { s.procs i with pc := PC.callClient })
  | buildOSError (s : WSysState n) (i : Fin n)
      (h : (s.procs i).pc = PC.buildFlags) :
      WStep sd cwd (Ev.buildOSError i) s
        (setWLock (setWProc s i (exceptClient (s.procs i))) (clientLockFile (cwd i)) none)
  | callOk (s : WSysState n) (i : Fin n)
      (h : (s.procs i).pc = PC.callClient) :
      WStep sd cwd (Ev.callOk i) s
        (setWLock (setWProc s i { s.procs i with pc := PC.done ExitCode.SUCCESS, launches := (s.procs i).launches + 1 }) (clientLockFile (cwd i)) none)
  | callOSError (s : WSysState n) (i : Fin n)
      (h : (s.procs i).pc = PC.callClient) :
      WStep sd cwd (Ev.callOSError i) s
        (setWLock (setWProc s i { exceptClient (s.procs i) with launches := (s.procs i).launches + 1 }) (clientLockFile (cwd i)) none)
  | callFail (s : WSysState n) (i : Fin n)
      (h : (s.procs i).pc = PC.callClient) :
      WStep sd cwd (Ev.callFail i) s
        (setWLock (setWProc s i { s.procs i with pc := PC.fatal, launches := (s.procs i).launches + 1 }) (clientLockFile (cwd i)) none)

/-- Reachability in the working-directory-aware semantics. -/
inductive WReach {n : Nat} (sd : String) (cwd : Fin n → String) (s0 : WSysState n) :
    WSysState n → Prop where
  | refl : WReach sd cwd s0 s0
  | tail {s s' : WSysState n} {e : Ev n} :
      WReach sd cwd s0 s → WStep sd cwd e s s' → WReach sd cwd s0 s'

/-- Invariant of the working-directory-aware semantics: a process inside
the probe-and-launch section holds the client lock at the file its own
working directory resolves to. -/
def WCritOwns {n : Nat} (cwd : Fin n → String) (s : WSysState n) : Prop :=
  ∀ i, InCrit ((s.procs i).pc) → s.clientLocks (clientLockFile (cwd i)) = some i

/-! ### Run W: two same-project attempts from different working directories

Process 0 runs from `/cwdA`, process 1 from `/cwdB`, both starting the
project `/proj`.  Each acquires the client-lock file under its own
working directory, so neither blocks the other: after process 0 has
probed, released the server lock and moved on to flag assembly, process 1
acquires its own client lock and probes the (free) server lock too.  At
`stW8` both processes are in the probe-and-launch section at once, and by
`stW12` both have invoked the launcher. -/

/-- The two working directories of run W. -/
def demoCwd : Fin 2 → String := fun i => if i = 0 then "/cwdA" else "/cwdB"

def stW0 : WSysState 2 := winit 2 false

def stW1 : WSysState 2 :=
  setWProc stW0 0 { stW0.procs 0 with pc := PC.acquireClient, blocking := false }

def stW2 : WSysState 2 :=
  setWLock (setWProc stW1 0 { stW1.procs 0 with pc := PC.probe }) (clientLockFile (demoCwd 0)) (some 0)

def stW3 : WSysState 2 :=
  { setWProc stW2 0 { stW2.procs 0 with pc := PC.probeHeld } with serverLock := some (Owner.proc 0) }

def stW4 : WSysState 2 :=
  { setWProc stW3 0 { stW3.procs 0 with pc := PC.buildFlags } with serverLock := none }

def stW5 : WSysState 2 :=
  setWProc stW4 1 { stW4.procs 1 with pc := PC.acquireClient, blocking := false }

def stW6 : WSysState 2 :=
  setWLock (setWProc stW5 1 { stW5.procs 1 with pc := PC.probe }) (clientLockFile (demoCwd 1)) (some 1)

def stW7 : WSysState 2 :=
  { setWProc stW6 1 { stW6.procs 1 with pc := PC.probeHeld } with serverLock := some (Owner.proc 1) }

def stW8 : WSysState 2 :=
  { setWProc stW7 1 { stW7.procs 1 with pc := PC.buildFlags } with serverLock := none }

def stW9 : WSysState 2 := setWProc stW8 0 { stW8.procs 0 with pc := PC.callClient }

def stW10 : WSysState 2 :=
  setWLock (setWProc stW9 0 { stW9.procs 0 with pc := PC.done ExitCode.SUCCESS, launches := (stW9.procs 0).launches + 1 }) (clientLockFile (demoCwd 0)) none

def stW11 : WSysState 2 := setWProc stW10 1 { stW10.procs 1 with pc := PC.callClient }

def stW12 : WSysState 2 :=
  setWLock (setWProc stW11 1 { stW11.procs 1 with pc := PC.done ExitCode.SUCCESS, launches := (stW11.procs 1).launches + 1 }) (clientLockFile (demoCwd 1)) none

@[simp] theorem setProc_clientLock {n : Nat} (s : SysState n) (i : Fin n)
    (p : ProcState) : (setProc s i p).clientLock = s.clientLock := rfl

@[simp] theorem setProc_serverLock {n : Nat} (s : SysState n) (i : Fin n)
    (p : ProcState) : (setProc s i p).serverLock = s.serverLock := rfl

@[simp] theorem setProc_procs_self {n : Nat} (s : SysState n) (i : Fin n)
    (p : ProcState) : (setProc s i p).procs i = p := by
  simp [setProc]

theorem setProc_procs_other {n : Nat} {s : SysState n} {i j : Fin n}
    {p : ProcState} (h : j ≠ i) : (setProc s i p).procs j = s.procs j := by
  simp [setProc, Function.update_noteq h]

theorem lockInv_init (n : Nat) (serverRunning : Bool) :
    LockInv (initState n serverRunning) := by
  refine ⟨fun i hi => ?_, fun i hi => ?_, fun i hi => ?_⟩
  · simp [initState, initProc, InCrit] at hi
  · cases serverRunning <;> simp [initState] at hi
  · simp [initState, initProc] at hi

theorem lockInv_step {n : Nat} {sd : String} {e : Ev n} {s s' : SysState n}
    (h : LockInv s) (hstep : Step sd e s s') : LockInv s' := by
  obtain ⟨hco, hsp, hps⟩ := h
  cases hstep with
  | resetBlocking _ i hpc =>
      refine ⟨fun j hj => ?_, fun j hj => ?_, fun j hj => ?_⟩
      · rcases eq_or_ne j i with rfl | hne
        · simp [InCrit] at hj
        · rw [setProc_procs_other hne] at hj
          exact hco j hj
      · rcases eq_or_ne j i with rfl | hne
        · have h2 := hsp j hj
          rw [hpc] at h2
          simp at h2
        · rw [setProc_procs_other hne]
          exact hsp j hj
      · rcases eq_or_ne j i with rfl | hne
        · rw [setProc_procs_self] at hj
          simp at hj
        · rw [setProc_procs_other hne] at hj
          exact hps j hj
  | acquireClientOk _ i hpc hl =>
      refine ⟨fun j hj => ?_, fun j hj => ?_, fun j hj => ?_⟩
      · rcases eq_or_ne j i with rfl | hne
        · rfl
        · rw [setProc_procs_other hne] at hj
          have h1 := hco j hj
          rw [hl] at h1
          cases h1
      · rcases eq_or_ne j i with rfl | hne
        · have h2 := hsp j hj
          rw [hpc] at h2
          simp at h2
        · rw [setProc_procs_other hne]
          exact hsp j hj
      · rcases eq_or_ne j i with rfl | hne
        · rw [setProc_procs_self] at hj
          simp at hj
        · rw [setProc_procs_other hne] at hj
          exact hps j hj
  | acquireClientBusy _ i hpc hb hl =>
      refine ⟨fun j hj => ?_, fun j hj => ?_, fun j hj => ?_⟩
      · rcases eq_or_ne j i with rfl | hne
        · simp [exceptClient, InCrit] at hj
        · rw [setProc_procs_other hne] at hj
          exact hco j hj
      · rcases eq_or_ne j i with rfl | hne
        · have h2 := hsp j hj
          rw [hpc] at h2
          simp at h2
        · rw [setProc_procs_other hne]
          exact hsp j hj
      · rcases eq_or_ne j i with rfl | hne
        · rw [setProc_procs_self] at hj
          simp [exceptClient] at hj
        · rw [setProc_procs_other hne] at hj
          exact hps j hj
  | acquireClientUnavail _ i hpc =>
      refine ⟨fun j hj => ?_, fun j hj => ?_, fun j hj => ?_⟩
      · rcases eq_or_ne j i with rfl | hne
        · simp [exceptClient, InCrit] at hj
        · rw [setProc_procs_other hne] at hj
          exact hco j hj
      · rcases eq_or_ne j i with rfl | hne
        · have h2 := hsp j hj
          rw [hpc] at h2
          simp at h2
        · rw [setProc_procs_other hne]
          exact hsp j hj
      · rcases eq_or_ne j i with rfl | hne
        · rw [setProc_procs_self] at hj
          simp [exceptClient] at hj
        · rw [setProc_procs_other hne] at hj
          exact hps j hj
  | probeOk _ i hpc hs =>
      refine ⟨fun j hj => ?_, fun j hj => ?_, fun j hj => ?_⟩
      · show s.clientLock = some j
        rcases eq_or_ne j i with rfl | hne
        · exact hco j (by rw [hpc]; exact Or.inl rfl)
        · rw [setProc_procs_other hne] at hj
          exact hco j hj
      · have hj' : Owner.proc i = Owner.proc j := by simpa using hj
        injection hj' with hij
        subst hij
        simp
      · rcases eq_or_ne j i with rfl | hne
        · rfl
        · rw [setProc_procs_other hne] at hj
          have h1 := hps j hj
          rw [hs] at h1
          cases h1
  | probeBusy _ i hpc hs =>
      refine ⟨fun j hj => ?_, fun j hj => ?_, fun j hj => ?_⟩
      · rcases eq_or_ne j i with rfl | hne
        · rw [setProc_procs_self] at hj
          simp [InCrit] at hj
        · rw [setProc_procs_other hne] at hj
          have h1 := hco j hj
          have h2 := hco i (by rw [hpc]; exact Or.inl rfl)
          rw [h1] at h2
          exact absurd (Option.some.inj h2) hne
      · rcases eq_or_ne j i with rfl | hne
        · have h2 := hsp j hj
          rw [hpc] at h2
          simp at h2
        · rw [setProc_procs_other hne]
          exact hsp j hj
      · rcases eq_or_ne j i with rfl | hne
        · rw [setProc_procs_self] at hj
          simp at hj
        · rw [setProc_procs_other hne] at hj
          exact hps j hj
  | probeUnavail _ i hpc =>
      refine ⟨fun j hj => ?_, fun j hj => ?_, fun j hj => ?_⟩
      · rcases eq_or_ne j i with rfl | hne
        · rw [setProc_procs_self] at hj
          simp [InCrit] at hj
        · rw [setProc_procs_other hne] at hj
          have h1 := hco j hj
          have h2 := hco i (by rw [hpc]; exact Or.inl rfl)
          rw [h1] at h2
          exact absurd (Option.some.inj h2) hne
      · rcases eq_or_ne j i with rfl | hne
        · have h2 := hsp j hj
          rw [hpc] at h2
          simp at h2
        · rw [setProc_procs_other hne]
          exact hsp j hj
      · rcases eq_or_ne j i with rfl | hne
        · rw [setProc_procs_self] at hj
          simp at hj
        · rw [setProc_procs_other hne] at hj
          exact hps j hj
  | releaseServer _ i hpc =>
      refine ⟨fun j hj => ?_, fun j hj => ?_, fun j hj => ?_⟩
      · show s.clientLock = some j
        rcases eq_or_ne j i with rfl | hne
        · exact hco j (by rw [hpc]; exact Or.inr (Or.inl rfl))
        · rw [setProc_procs_other hne] at hj
          exact hco j hj
      · simp at hj
      · rcases eq_or_ne j i with rfl | hne
        · rw [setProc_procs_self] at hj
          simp at hj
        · rw [setProc_procs_other hne] at hj
          have h1 := hps j hj
          have h2 := hps i hpc
          rw [h1] at h2
          have h3 : Owner.proc j = Owner.proc i := Option.some.inj h2
          injection h3 with h4
          exact absurd h4 hne
  | buildOk _ i hpc =>
      refine ⟨fun j hj => ?_, fun j hj => ?_, fun j hj => ?_⟩
      · show s.clientLock = some j
        rcases eq_or_ne j i with rfl | hne
        · exact hco j (by rw [hpc]; exact Or.inr (Or.inr (Or.inl rfl)))
        · rw [setProc_procs_other hne] at hj
          exact hco j hj
      · rcases eq_or_ne j i with rfl | hne
        · have h2 := hsp j hj
          rw [hpc] at h2
          simp at h2
        · rw [setProc_procs_other hne]
          exact hsp j hj
      · rcases eq_or_ne j i with rfl | hne
        · rw [setProc_procs_self] at hj
          simp at hj
        · rw [setProc_procs_other hne] at hj
          exact hps j hj
  | buildOSError _ i hpc =>
      refine ⟨fun j hj => ?_, fun j hj => ?_, fun j hj => ?_⟩
      · rcases eq_or_ne j i with rfl | hne
        · rw [setProc_procs_self] at hj
          simp [exceptClient, InCrit] at hj
        · rw [setProc_procs_other hne] at hj
          have h1 := hco j hj
          have h2 := hco i (by rw [hpc]; exact Or.inr (Or.inr (Or.inl rfl)))
          rw [h1] at h2
          exact absurd (Option.some.inj h2) hne
      · rcases eq_or_ne j i with rfl | hne
        · have h2 := hsp j hj
          rw [hpc] at h2
          simp at h2
        · rw [setProc_procs_other hne]
          exact hsp j hj
      · rcases eq_or_ne j i with rfl | hne
        · rw [setProc_procs_self] at hj
          simp [exceptClient] at hj
        · rw [setProc_procs_other hne] at hj
          exact hps j hj
  | callOk _ i hpc =>
      refine ⟨fun j hj => ?_, fun j hj => ?_, fun j hj => ?_⟩
      · rcases eq_or_ne j i with rfl | hne
        · rw [setProc_procs_self] at hj
          simp [InCrit] at hj
        · rw [setProc_procs_other hne] at hj
          have h1 := hco j hj
          have h2 := hco i (by rw [hpc]; exact Or.inr (Or.inr (Or.inr rfl)))
          rw [h1] at h2
          exact absurd (Option.some.inj h2) hne
      · rcases eq_or_ne j i with rfl | hne
        · have h2 := hsp j hj
          rw [hpc] at h2
          simp at h2
        · rw [setProc_procs_other hne]
          exact hsp j hj
      · rcases eq_or_ne j i with rfl | hne
        · rw [setProc_procs_self] at hj
          simp at hj
        · rw [setProc_procs_other hne] at hj
          exact hps j hj
  | callOSError _ i hpc =>
      refine ⟨fun j hj => ?_, fun j hj => ?_, fun j hj => ?_⟩
      · rcases eq_or_ne j i with rfl | hne
        · rw [setProc_procs_self] at hj
          simp [exceptClient, InCrit] at hj
        · rw [setProc_procs_other hne] at hj
          have h1 := hco j hj
          have h2 := hco i (by rw [hpc]; exact Or.inr (Or.inr (Or.inr rfl)))
          rw [h1] at h2
          exact absurd (Option.some.inj h2) hne
      · rcases eq_or_ne j i with rfl | hne
        · have h2 := hsp j hj
          rw [hpc] at h2
          simp at h2
        · rw [setProc_procs_other hne]
          exact hsp j hj
      · rcases eq_or_ne j i with rfl | hne
        · rw [setProc_procs_self] at hj
          simp [exceptClient] at hj
        · rw [setProc_procs_other hne] at hj
          exact hps j hj
  | callFail _ i hpc =>
      refine ⟨fun j hj => ?_, fun j hj => ?_, fun j hj => ?_⟩
      · rcases eq_or_ne j i with rfl | hne
        · rw [setProc_procs_self] at hj
          simp [InCrit] at hj
        · rw [setProc_procs_other hne] at hj
          have h1 := hco j hj
          have h2 := hco i (by rw [hpc]; exact Or.inr (Or.inr (Or.inr rfl)))
          rw [h1] at h2
          exact absurd (Option.some.inj h2) hne
      · rcases eq_or_ne j i with rfl | hne
        · have h2 := hsp j hj
          rw [hpc] at h2
          simp at h2
        · rw [setProc_procs_other hne]
          exact hsp j hj
      · rcases eq_or_ne j i with rfl | hne
        · rw [setProc_procs_self] at hj
          simp at hj
        · rw [setProc_procs_other hne] at hj
          exact hps j hj

theorem lockInv_reach {n : Nat} {sd : String} {serverRunning : Bool}
    {s : SysState n} (hr : Reach sd (initState n serverRunning) s) : LockInv s := by
  induction hr with
  | refl => exact lockInv_init n serverRunning
  | tail _ hstep ih => exact lockInv_step ih hstep

/-! ## The dead escalation

`blocking = True` in the outer `except OSError` handler is immediately
undone by the `blocking = False` at the top of the next loop iteration, so
every call of `acquire_lock(".pyre/client.lock", blocking)` in any
reachable state is made with `blocking == False`. -/

theorem blocking_false_at_acquireClient {n : Nat} {sd : String}
    {serverRunning : Bool} {s : SysState n}
    (hr : Reach sd (initState n serverRunning) s) :
    ∀ i, (s.procs i).pc = PC.acquireClient → (s.procs i).blocking = false := by
  induction hr with
  | refl => intro i _; rfl
  | tail _ hstep ih =>
      intro j hj
      cases hstep with
      | resetBlocking _ i hpc =>
          rcases eq_or_ne j i with rfl | hne
          · rw [setProc_procs_self]
          · rw [setProc_procs_other hne] at hj ⊢
            exact ih j hj
      | acquireClientOk _ i hpc hl =>
          rcases eq_or_ne j i with rfl | hne
          · rw [setProc_procs_self] at hj; simp at hj
          · rw [setProc_procs_other hne] at hj ⊢
            exact ih j hj
      | acquireClientBusy _ i hpc hb hl =>
          rcases eq_or_ne j i with rfl | hne
          · rw [setProc_procs_self] at hj; simp [exceptClient] at hj
          · rw [setProc_procs_other hne] at hj ⊢
            exact ih j hj
      | acquireClientUnavail _ i hpc =>
          rcases eq_or_ne j i with rfl | hne
          · rw [setProc_procs_self] at hj; simp [exceptClient] at hj
          · rw [setProc_procs_other hne] at hj ⊢
            exact ih j hj
      | probeOk _ i hpc hs =>
          rcases eq_or_ne j i with rfl | hne
          · rw [setProc_procs_self] at hj; simp at hj
          · rw [setProc_procs_other hne] at hj ⊢
            exact ih j hj
      | probeBusy _ i hpc hs =>
          rcases eq_or_ne j i with rfl | hne
          · rw [setProc_procs_self] at hj; simp at hj
          · rw [setProc_procs_other hne] at hj ⊢
            exact ih j hj
      | probeUnavail _ i hpc =>
          rcases eq_or_ne j i with rfl | hne
          · rw [setProc_procs_self] at hj; simp at hj
          · rw [setProc_procs_other hne] at hj ⊢
            exact ih j hj
      | releaseServer _ i hpc =>
          rcases eq_or_ne j i with rfl | hne
          · rw [setProc_procs_self] at hj; simp at hj
          · rw [setProc_procs_other hne] at hj ⊢
            exact ih j hj
      | buildOk _ i hpc =>
          rcases eq_or_ne j i with rfl | hne
          · rw [setProc_procs_self] at hj; simp at hj
          · rw [setProc_procs_other hne] at hj ⊢
            exact ih j hj
      | buildOSError _ i hpc =>
          rcases eq_or_ne j i with rfl | hne
          · rw [setProc_procs_self] at hj; simp [exceptClient] at hj
          · rw [setProc_procs_other hne] at hj ⊢
            exact ih j hj
      | callOk _ i hpc =>
          rcases eq_or_ne j i with rfl | hne
          · rw [setProc_procs_self] at hj; simp at hj
          · rw [setProc_procs_other hne] at hj ⊢
            exact ih j hj
      | callOSError _ i hpc =>
          rcases eq_or_ne j i with rfl | hne
          · rw [setProc_procs_self] at hj; simp [exceptClient] at hj
          · rw [setProc_procs_other hne] at hj ⊢
            exact ih j hj
      | callFail _ i hpc =>
          rcases eq_or_ne j i with rfl | hne
          · rw [setProc_procs_self] at hj; simp at hj
          · rw [setProc_procs_other hne] at hj ⊢
            exact ih j hj

theorem serverHeldInv_init (n : Nat) (sd : String) :
    ServerHeldInv sd (initState n true) := by
  refine ⟨rfl, fun i => Or.inl rfl, fun i => rfl, fun i hi => ?_, fun i _ => rfl⟩
  simp [initState, initProc] at hi

theorem serverHeldInv_step {n : Nat} {sd : String} {e : Ev n} {s s' : SysState n}
    (h : ServerHeldInv sd s) (hstep : Step sd e s s') : ServerHeldInv sd s' := by
  obtain ⟨hsl, hpcs, hl0, hwd, hwp⟩ := h
  cases hstep with
  | resetBlocking _ i hpc =>
      refine ⟨hsl, fun j => ?_, fun j => ?_, fun j hj => ?_, fun j hj => ?_⟩
      · rcases eq_or_ne j i with rfl | hne
        · rw [setProc_procs_self]; exact Or.inr (Or.inl rfl)
        · rw [setProc_procs_other hne]; exact hpcs j
      · rcases eq_or_ne j i with rfl | hne
        · rw [setProc_procs_self]; exact hl0 j
        · rw [setProc_procs_other hne]; exact hl0 j
      · rcases eq_or_ne j i with rfl | hne
        · rw [setProc_procs_self] at hj; simp at hj
        · rw [setProc_procs_other hne] at hj ⊢; exact hwd j hj
      · rcases eq_or_ne j i with rfl | hne
        · rw [setProc_procs_self]
          exact hwp j (by rw [hpc]; simp)
        · rw [setProc_procs_other hne] at hj ⊢; exact hwp j hj
  | acquireClientOk _ i hpc hl =>
      refine ⟨hsl, fun j => ?_, fun j => ?_, fun j hj => ?_, fun j hj => ?_⟩
      · rcases eq_or_ne j i with rfl | hne
        · rw [setProc_procs_self]; exact Or.inr (Or.inr (Or.inl rfl))
        · rw [setProc_procs_other hne]; exact hpcs j
      · rcases eq_or_ne j i with rfl | hne
        · rw [setProc_procs_self]; exact hl0 j
        · rw [setProc_procs_other hne]; exact hl0 j
      · rcases eq_or_ne j i with rfl | hne
        · rw [setProc_procs_self] at hj; simp at hj
        · rw [setProc_procs_other hne] at hj ⊢; exact hwd j hj
      · rcases eq_or_ne j i with rfl | hne
        · rw [setProc_procs_self]
          exact hwp j (by rw [hpc]; simp)
        · rw [setProc_procs_other hne] at hj ⊢; exact hwp j hj
  | acquireClientBusy _ i hpc hb hl =>
      refine ⟨hsl, fun j => ?_, fun j => ?_, fun j hj => ?_, fun j hj => ?_⟩
      · rcases eq_or_ne j i with rfl | hne
        · rw [setProc_procs_self]; exact Or.inl rfl
        · rw [setProc_procs_other hne]; exact hpcs j
      · rcases eq_or_ne j i with rfl | hne
        · rw [setProc_procs_self]; exact hl0 j
        · rw [setProc_procs_other hne]; exact hl0 j
      · rcases eq_or_ne j i with rfl | hne
        · rw [setProc_procs_self] at hj; simp [exceptClient] at hj
        · rw [setProc_procs_other hne] at hj ⊢; exact hwd j hj
      · rcases eq_or_ne j i with rfl | hne
        · rw [setProc_procs_self]
          exact hwp j (by rw [hpc]; simp)
        · rw [setProc_procs_other hne] at hj ⊢; exact hwp j hj
  | acquireClientUnavail _ i hpc =>
      refine ⟨hsl, fun j => ?_, fun j => ?_, fun j hj => ?_, fun j hj => ?_⟩
      · rcases eq_or_ne j i with rfl | hne
        · rw [setProc_procs_self]; exact Or.inl rfl
        · rw [setProc_procs_other hne]; exact hpcs j
      · rcases eq_or_ne j i with rfl | hne
        · rw [setProc_procs_self]; exact hl0 j
        · rw [setProc_procs_other hne]; exact hl0 j
      · rcases eq_or_ne j i with rfl | hne
        · rw [setProc_procs_self] at hj; simp [exceptClient] at hj
        · rw [setProc_procs_other hne] at hj ⊢; exact hwd j hj
      · rcases eq_or_ne j i with rfl | hne
        · rw [setProc_procs_self]
          exact hwp j (by rw [hpc]; simp)
        · rw [setProc_procs_other hne] at hj ⊢; exact hwp j hj
  | probeOk _ i hpc hs =>
      rw [hsl] at hs; cases hs
  | probeBusy _ i hpc hs =>
      refine ⟨hsl, fun j => ?_, fun j => ?_, fun j hj => ?_, fun j hj => ?_⟩
      · rcases eq_or_ne j i with rfl | hne
        · rw [setProc_procs_self]; exact Or.inr (Or.inr (Or.inr rfl))
        · rw [setProc_procs_other hne]; exact hpcs j
      · rcases eq_or_ne j i with rfl | hne
        · rw [setProc_procs_self]; exact hl0 j
        · rw [setProc_procs_other hne]; exact hl0 j
      · rcases eq_or_ne j i with rfl | hne
        · rw [setProc_procs_self]
          have hw : (s.procs j).warnings = [] := hwp j (by rw [hpc]; simp)
          simp [hw]
        · rw [setProc_procs_other hne] at hj ⊢; exact hwd j hj
      · rcases eq_or_ne j i with rfl | hne
        · rw [setProc_procs_self] at hj
          simp at hj
        · rw [setProc_procs_other hne] at hj ⊢; exact hwp j hj
  | probeUnavail _ i hpc =>
      refine ⟨hsl, fun j => ?_, fun j => ?_, fun j hj => ?_, fun j hj => ?_⟩
      · rcases eq_or_ne j i with rfl | hne
        · rw [setProc_procs_self]; exact Or.inr (Or.inr (Or.inr rfl))
        · rw [setProc_procs_other hne]; exact hpcs j
      · rcases eq_or_ne j i with rfl | hne
        · rw [setProc_procs_self]; exact hl0 j
        · rw [setProc_procs_other hne]; exact hl0 j
      · rcases eq_or_ne j i with rfl | hne
        · rw [setProc_procs_self]
          have hw : (s.procs j).warnings = [] := hwp j (by rw [hpc]; simp)
          simp [hw]
        · rw [setProc_procs_other hne] at hj ⊢; exact hwd j hj
      · rcases eq_or_ne j i with rfl | hne
        · rw [setProc_procs_self] at hj
          simp at hj
        · rw [setProc_procs_other hne] at hj ⊢; exact hwp j hj
  | releaseServer _ i hpc =>
      rcases hpcs i with h | h | h | h <;> rw [hpc] at h <;> cases h
  | buildOk _ i hpc =>
      rcases hpcs i with h | h | h | h <;> rw [hpc] at h <;> cases h
  | buildOSError _ i hpc =>
      rcases hpcs i with h | h | h | h <;> rw [hpc] at h <;> cases h
  | callOk _ i hpc =>
      rcases hpcs i with h | h | h | h <;> rw [hpc] at h <;> cases h
  | callOSError _ i hpc =>
      rcases hpcs i with h | h | h | h <;> rw [hpc] at h <;> cases h
  | callFail _ i hpc =>
      rcases hpcs i with h | h | h | h <;> rw [hpc] at h <;> cases h

theorem serverHeldInv_reach {n : Nat} {sd : String} {s : SysState n}
    (hr : Reach sd (initState n true) s) : ServerHeldInv sd s := by
  induction hr with
  | refl => exact serverHeldInv_init n sd
  | tail _ hstep ih => exact serverHeldInv_step ih hstep

theorem stepA1 : Step (n := 2) demoDir (Ev.resetBlocking 0) stA0 stA1 :=
  Step.resetBlocking stA0 0 rfl

theorem stepA2 : Step (n := 2) demoDir (Ev.acquireClientOk 0) stA1 stA2 :=
  Step.acquireClientOk stA1 0 rfl rfl

theorem stepA3 : Step (n := 2) demoDir (Ev.resetBlocking 1) stA2 stA3 :=
  Step.resetBlocking stA2 1 rfl

theorem stepA4 : Step (n := 2) demoDir (Ev.acquireClientBusy 1) stA3 stA4 :=
  Step.acquireClientBusy stA3 1 rfl rfl (by decide)

theorem stepA5 : Step (n := 2) demoDir (Ev.resetBlocking 1) stA4 stA5 :=
  Step.resetBlocking stA4 1 rfl

theorem stepA6 : Step (n := 2) demoDir (Ev.acquireClientBusy 1) stA5 stA6 :=
  Step.acquireClientBusy stA5 1 rfl rfl (by decide)

theorem stepA7 : Step (n := 2) demoDir (Ev.probeOk 0) stA6 stA7 :=
  Step.probeOk stA6 0 rfl rfl

theorem stepA8 : Step (n := 2) demoDir (Ev.releaseServer 0) stA7 stA8 :=
  Step.releaseServer stA7 0 rfl

theorem stepA9 : Step (n := 2) demoDir (Ev.buildOk 0) stA8 stA9 :=
  Step.buildOk stA8 0 rfl

theorem stepA10 : Step (n := 2) demoDir (Ev.callOk 0) stA9 stA10 :=
  Step.callOk stA9 0 rfl

theorem stepA11 : Step (n := 2) demoDir (Ev.resetBlocking 1) stA10 stA11 :=
  Step.resetBlocking stA10 1 rfl

theorem stepA12 : Step (n := 2) demoDir (Ev.acquireClientOk 1) stA11 stA12 :=
  Step.acquireClientOk stA11 1 rfl rfl

theorem stepA13 : Step (n := 2) demoDir (Ev.probeOk 1) stA12 stA13 :=
  Step.probeOk stA12 1 rfl rfl

theorem reachA2 : Reach demoDir (initState 2 false) stA2 :=
  Reach.tail (Reach.tail Reach.refl stepA1) stepA2

theorem reachA5 : Reach demoDir (initState 2 false) stA5 :=
  Reach.tail (Reach.tail (Reach.tail reachA2 stepA3) stepA4) stepA5

theorem reachA6 : Reach demoDir (initState 2 false) stA6 :=
  Reach.tail reachA5 stepA6

theorem reachA13 : Reach demoDir (initState 2 false) stA13 :=
  Reach.tail (Reach.tail (Reach.tail (Reach.tail (Reach.tail (Reach.tail
    (Reach.tail reachA6 stepA7) stepA8) stepA9) stepA10) stepA11) stepA12) stepA13

theorem stepB1 : Step (n := 1) demoDir (Ev.resetBlocking 0) stB0 stB1 :=
  Step.resetBlocking stB0 0 rfl

theorem stepB2 : Step (n := 1) demoDir (Ev.acquireClientOk 0) stB1 stB2 :=
  Step.acquireClientOk stB1 0 rfl rfl

theorem stepB3 : Step (n := 1) demoDir (Ev.probeBusy 0) stB2 stB3 :=
  Step.probeBusy stB2 0 rfl (by decide)

theorem reachB3 : Reach demoDir (initState 1 true) stB3 :=
  Reach.tail (Reach.tail (Reach.tail Reach.refl stepB1) stepB2) stepB3

theorem stepC1 : Step (n := 1) demoDir (Ev.resetBlocking 0) stC0 stC1 :=
  Step.resetBlocking stC0 0 rfl

theorem stepC2 : Step (n := 1) demoDir (Ev.acquireClientUnavail 0) stC1 stC2 :=
  Step.acquireClientUnavail stC1 0 rfl

theorem reachC1 : Reach demoDir (initState 1 false) stC1 :=
  Reach.tail Reach.refl stepC1

theorem stepD2 : Step (n := 1) demoDir (Ev.acquireClientOk 0) stC1 stD2 :=
  Step.acquireClientOk stC1 0 rfl rfl

theorem stepD3 : Step (n := 1) demoDir (Ev.probeOk 0) stD2 stD3 :=
  Step.probeOk stD2 0 rfl rfl

theorem stepD4 : Step (n := 1) demoDir (Ev.releaseServer 0) stD3 stD4 :=
  Step.releaseServer stD3 0 rfl

theorem stepD5 : Step (n := 1) demoDir (Ev.buildOSError 0) stD4 stD5 :=
  Step.buildOSError stD4 0 rfl

theorem reachD4 : Reach demoDir (initState 1 false) stD4 :=
  Reach.tail (Reach.tail (Reach.tail reachC1 stepD2) stepD3) stepD4

theorem reachD2 : Reach demoDir (initState 1 false) stD2 :=
  Reach.tail reachC1 stepD2

theorem stepE3 : Step (n := 1) demoDir (Ev.probeUnavail 0) stD2 stE3 :=
  Step.probeUnavail stD2 0 rfl

/-! ## Lemmas for the working-directory-aware semantics -/

@[simp] theorem setWProc_procs_self {n : Nat} (s : WSysState n) (i : Fin n)
    (p : ProcState) : (setWProc s i p).procs i = p := by
  simp [setWProc]

theorem setWProc_procs_other {n : Nat} {s : WSysState n} {i j : Fin n}
    {p : ProcState} (h : j ≠ i) : (setWProc s i p).procs j = s.procs j := by
  simp [setWProc, Function.update_noteq h]

@[simp] theorem setWProc_clientLocks {n : Nat} (s : WSysState n) (i : Fin n)
    (p : ProcState) : (setWProc s i p).clientLocks = s.clientLocks := rfl

@[simp] theorem setWProc_serverLock {n : Nat} (s : WSysState n) (i : Fin n)
    (p : ProcState) : (setWProc s i p).serverLock = s.serverLock := rfl

@[simp] theorem setWLock_procs {n : Nat} (s : WSysState n) (path : String)
    (v : Option (Fin n)) : (setWLock s path v).procs = s.procs := rfl

@[simp] theorem setWLock_serverLock {n : Nat} (s : WSysState n) (path : String)
    (v : Option (Fin n)) : (setWLock s path v).serverLock = s.serverLock := rfl

@[simp] theorem setWLock_self {n : Nat} (s : WSysState n) (path : String)
    (v : Option (Fin n)) : (setWLock s path v).clientLocks path = v := by
  simp [setWLock]

theorem setWLock_other {n : Nat} {s : WSysState n} {path q : String}
    {v : Option (Fin n)} (h : q ≠ path) :
    (setWLock s path v).clientLocks q = s.clientLocks q := by
  simp [setWLock, Function.update_noteq h]

theorem wcritOwns_init (n : Nat) (cwd : Fin n → String) (serverRunning : Bool) :
    WCritOwns cwd (winit n serverRunning) := by
  intro i hi
  simp [winit, initProc, InCrit] at hi

theorem wcritOwns_step {n : Nat} {sd : String} {cwd : Fin n → String} {e : Ev n}
    {s s' : WSysState n} (hco : WCritOwns cwd s) (hstep : WStep sd cwd e s s') :
    WCritOwns cwd s' := by
  cases hstep with
  | resetBlocking _ i hpc =>
      intro j hj
      rcases eq_or_ne j i with rfl | hne
      · rw [setWProc_procs_self] at hj
        simp [InCrit] at hj
      · rw [setWProc_procs_other hne] at hj
        exact hco j hj
  | acquireClientOk _ i hpc hl =>
      intro j hj
      simp only [setWLock_procs] at hj
      rcases eq_or_ne j i with rfl | hne
      · rw [setWLock_self]
      · rw [setWProc_procs_other hne] at hj
        have hcl := hco j hj
        have hne2 : clientLockFile (cwd j) ≠ clientLockFile (cwd i) := by
          intro hq
          rw [hq, hl] at hcl
          cases hcl
        rw [setWLock_other hne2]
        exact hcl
  | acquireClientBusy _ i hpc hb hl =>
      intro j hj
      rcases eq_or_ne j i with rfl | hne
      · rw [setWProc_procs_self] at hj
        simp [exceptClient, InCrit] at hj
      · rw [setWProc_procs_other hne] at hj
        exact hco j hj
  | acquireClientUnavail _ i hpc =>
      intro j hj
      rcases eq_or_ne j i with rfl | hne
      · rw [setWProc_procs_self] at hj
        simp [exceptClient, InCrit] at hj
      · rw [setWProc_procs_other hne] at hj
        exact hco j hj
  | probeOk _ i hpc hs =>
      intro j hj
      rcases eq_or_ne j i with rfl | hne
      · show s.clientLocks (clientLockFile (cwd j)) = some j
        exact hco j (by rw [hpc]; exact Or.inl rfl)
      · rw [setWProc_procs_other hne] at hj
        exact hco j hj
  | probeBusy _ i hpc hs =>
      intro j hj
      simp only [setWLock_procs] at hj
      rcases eq_or_ne j i with rfl | hne
      · rw [setWProc_procs_self] at hj
        simp [InCrit] at hj
      · rw [setWProc_procs_other hne] at hj
        have hcl := hco j hj
        have hci := hco i (by rw [hpc]; exact Or.inl rfl)
        have hne2 : clientLockFile (cwd j) ≠ clientLockFile (cwd i) := by
          intro hq
          rw [hq, hci] at hcl
          exact hne (Option.some.inj hcl).symm
        rw [setWLock_other hne2]
        exact hcl
  | probeUnavail _ i hpc =>
      intro j hj
      simp only [setWLock_procs] at hj
      rcases eq_or_ne j i with rfl | hne
      · rw [setWProc_procs_self] at hj
        simp [InCrit] at hj
      · rw [setWProc_procs_other hne] at hj
        have hcl := hco j hj
        have hci := hco i (by rw [hpc]; exact Or.inl rfl)
        have hne2 : clientLockFile (cwd j) ≠ clientLockFile (cwd i) := by
          intro hq
          rw [hq, hci] at hcl
          exact hne (Option.some.inj hcl).symm
        rw [setWLock_other hne2]
        exact hcl
  | releaseServer _ i hpc =>
      intro j hj
      rcases eq_or_ne j i with rfl | hne
      · show s.clientLocks (clientLockFile (cwd j)) = some j
        exact hco j (by rw [hpc]; exact Or.inr (Or.inl rfl))
      · rw [setWProc_procs_other hne] at hj
        exact hco j hj
  | buildOk _ i hpc =>
      intro j hj
      rcases eq_or_ne j i with rfl | hne
      · show s.clientLocks (clientLockFile (cwd j)) = some j
        exact hco j (by rw [hpc]; exact Or.inr (Or.inr (Or.inl rfl)))
      · rw [setWProc_procs_other hne] at hj
        exact hco j hj
  | buildOSError _ i hpc =>
      intro j hj
      simp only [setWLock_procs] at hj
      rcases eq_or_ne j i with rfl | hne
      · rw [setWProc_procs_self] at hj
        simp [exceptClient, InCrit] at hj
      · rw [setWProc_procs_other hne] at hj
        have hcl := hco j hj
        have hci := hco i (by rw [hpc]; exact Or.inr (Or.inr (Or.inl rfl)))
        have hne2 : clientLockFile (cwd j) ≠ clientLockFile (cwd i) := by
          intro hq
          rw [hq, hci] at hcl
          exact hne (Option.some.inj hcl).symm
        rw [setWLock_other hne2]
        exact hcl
  | callOk _ i hpc =>
      intro j hj
      simp only [setWLock_procs] at hj
      rcases eq_or_ne j i with rfl | hne
      · rw [setWProc_procs_self] at hj
        simp [InCrit] at hj
      · rw [setWProc_procs_other hne] at hj
        have hcl := hco j hj
        have hci := hco i (by rw [hpc]; exact Or.inr (Or.inr (Or.inr rfl)))
        have hne2 : clientLockFile (cwd j) ≠ clientLockFile (cwd i) := by
          intro hq
          rw [hq, hci] at hcl
          exact hne (Option.some.inj hcl).symm
        rw [setWLock_other hne2]
        exact hcl
  | callOSError _ i hpc =>
      intro j hj
      simp only [setWLock_procs] at hj
      rcases eq_or_ne j i with rfl | hne
      · rw [setWProc_procs_self] at hj
        simp [exceptClient, InCrit] at hj
      · rw [setWProc_procs_other hne] at hj
        have hcl := hco j hj
        have hci := hco i (by rw [hpc]; exact Or.inr (Or.inr (Or.inr rfl)))
        have hne2 : clientLockFile (cwd j) ≠ clientLockFile (cwd i) := by
          intro hq
          rw [hq, hci] at hcl
          exact hne (Option.some.inj hcl).symm
        rw [setWLock_other hne2]
        exact hcl
  | callFail _ i hpc =>
      intro j hj
      simp only [setWLock_procs] at hj
      rcases eq_or_ne j i with rfl | hne
      · rw [setWProc_procs_self] at hj
        simp [InCrit] at hj
      · rw [setWProc_procs_other hne] at hj
        have hcl := hco j hj
        have hci := hco i (by rw [hpc]; exact Or.inr (Or.inr (Or.inr rfl)))
        have hne2 : clientLockFile (cwd j) ≠ clientLockFile (cwd i) := by
          intro hq
          rw [hq, hci] at hcl
          exact hne (Option.some.inj hcl).symm
        rw [setWLock_other hne2]
        exact hcl

theorem wcritOwns_reach {n : Nat} {sd : String} {cwd : Fin n → String}
    {serverRunning : Bool} {s : WSysState n}
    (hr : WReach sd cwd (winit n serverRunning) s) : WCritOwns cwd s := by
  induction hr with
  | refl => exact wcritOwns_init n cwd serverRunning
  | tail _ hstep ih => exact wcritOwns_step ih hstep

theorem wstep1 : WStep (n := 2) demoDir demoCwd (Ev.resetBlocking 0) stW0 stW1 :=
  WStep.resetBlocking stW0 0 rfl

theorem wstep2 : WStep (n := 2) demoDir demoCwd (Ev.acquireClientOk 0) stW1 stW2 :=
  WStep.acquireClientOk stW1 0 rfl rfl

theorem wstep3 : WStep (n := 2) demoDir demoCwd (Ev.probeOk 0) stW2 stW3 :=
  WStep.probeOk stW2 0 rfl rfl

theorem wstep4 : WStep (n := 2) demoDir demoCwd (Ev.releaseServer 0) stW3 stW4 :=
  WStep.releaseServer stW3 0 rfl

theorem wstep5 : WStep (n := 2) demoDir demoCwd (Ev.resetBlocking 1) stW4 stW5 :=
  WStep.resetBlocking stW4 1 rfl

theorem wstep6 : WStep (n := 2) demoDir demoCwd (Ev.acquireClientOk 1) stW5 stW6 :=
  WStep.acquireClientOk stW5 1 rfl (by decide)

theorem wstep7 : WStep (n := 2) demoDir demoCwd (Ev.probeOk 1) stW6 stW7 :=
  WStep.probeOk stW6 1 rfl rfl

theorem wstep8 : WStep (n := 2) demoDir demoCwd (Ev.releaseServer 1) stW7 stW8 :=
  WStep.releaseServer stW7 1 rfl

theorem wstep9 : WStep (n := 2) demoDir demoCwd (Ev.buildOk 0) stW8 stW9 :=
  WStep.buildOk stW8 0 rfl

theorem wstep10 : WStep (n := 2) demoDir demoCwd (Ev.callOk 0) stW9 stW10 :=
  WStep.callOk stW9 0 rfl

theorem wstep11 : WStep (n := 2) demoDir demoCwd (Ev.buildOk 1) stW10 stW11 :=
  WStep.buildOk stW10 1 rfl

theorem wstep12 : WStep (n := 2) demoDir demoCwd (Ev.callOk 1) stW11 stW12 :=
  WStep.callOk stW11 1 rfl

theorem wreach2 : WReach demoDir demoCwd (winit 2 false) stW2 :=
  WReach.tail (WReach.tail WReach.refl wstep1) wstep2

theorem wreach8 : WReach demoDir demoCwd (winit 2 false) stW8 :=
  WReach.tail (WReach.tail (WReach.tail (WReach.tail (WReach.tail
    (WReach.tail wreach2 wstep3) wstep4) wstep5) wstep6) wstep7) wstep8

theorem wreach12 : WReach demoDir demoCwd (winit 2 false) stW12 :=
  WReach.tail (WReach.tail (WReach.tail (WReach.tail wreach8 wstep9) wstep10)
    wstep11) wstep12

/-! ## Path algebra -/

theorem str_append_append (a b c : String) : a ++ b ++ c = a ++ (b ++ c) :=
  String.ext (by simp [String.data_append, List.append_assoc])

theorem str_append_ne_empty (a b : String) (hb : b.data ≠ []) : a ++ b ≠ "" := by
  intro h
  have hd := congrArg String.data h
  rw [String.data_append] at hd
  have h0 : ("" : String).data = ([] : List Char) := rfl
  rw [h0] at hd
  exact hb (List.append_eq_nil.mp hd).2

theorem str_getLast?_append (a b : String) (hb : b.data ≠ []) :
    (a ++ b).data.getLast? = b.data.getLast? := by
  rw [String.data_append]
  exact List.getLast?_append_of_ne_nil _ hb

theorem osPathJoin_rel (a b : String) (hb : b.data.head? ≠ some '/')
    (ha1 : a ≠ "") (ha2 : a.data.getLast? ≠ some '/') :
    osPathJoin a b = a ++ "/" ++ b := by
  unfold osPathJoin
  rw [if_neg hb, if_neg (not_or.mpr ⟨ha1, ha2⟩)]

theorem serverLockPath_expand (sdir : String) (h1 : sdir ≠ "")
    (h2 : sdir.data.getLast? ≠ some '/') :
    serverLockPath sdir = sdir ++ "/.pyre/server/server.lock" := by
  have e1 : osPathJoin sdir ".pyre" = sdir ++ "/.pyre" := by
    rw [osPathJoin_rel sdir ".pyre" (by decide) h1 h2, str_append_append]
    rfl
  have hne1 : sdir ++ "/.pyre" ≠ "" := str_append_ne_empty _ _ (by decide)
  have hl1 : (sdir ++ "/.pyre").data.getLast? = some 'e' := by
    rw [str_getLast?_append _ _ (by decide)]
    decide
  have e2 : osPathJoin (sdir ++ "/.pyre") "server" = sdir ++ "/.pyre/server" := by
    rw [osPathJoin_rel _ "server" (by decide) hne1 (by rw [hl1]; decide),
      str_append_append, str_append_append]
    rfl
  have hne2 : sdir ++ "/.pyre/server" ≠ "" := str_append_ne_empty _ _ (by decide)
  have hl2 : (sdir ++ "/.pyre/server").data.getLast? = some 'r' := by
    rw [str_getLast?_append _ _ (by decide)]
    decide
  have e3 : osPathJoin (sdir ++ "/.pyre/server") "server.lock" =
      sdir ++ "/.pyre/server/server.lock" := by
    rw [osPathJoin_rel _ "server.lock" (by decide) hne2 (by rw [hl2]; decide),
      str_append_append, str_append_append]
    rfl
  unfold serverLockPath
  rw [e1, e2, e3]

theorem clientLockPath_resolve (cwd : String) (h1 : cwd ≠ "")
    (h2 : cwd.data.getLast? ≠ some '/') :
    resolveAgainst cwd clientLockPath = cwd ++ "/.pyre/client.lock" := by
  unfold resolveAgainst clientLockPath
  rw [if_neg (by decide), osPathJoin_rel _ _ (by decide) h1 h2, str_append_append]
  rfl

/-! ## The claims -/

/-- C1: the spec says that on `ResourceBusy` the coordinator sets
`blocking = true` and retries the acquisition in blocking mode, with one
informational notice per escalation.  In the code, `blocking = False` is
the first statement of the `while True` body, so the `blocking = True`
assigned by the handler is dead: in the run below, process 1 suffers
`ResourceBusy` (one notice, `infoLogs = 1`), and its retried acquisition
attempt (state `stA5`) is again made with `blocking = false`; its second
failure logs a second notice (`infoLogs = 2`).  The retry is never
blocking and the notice count grows with every contended attempt. -/
theorem contended_retry_stays_nonblocking :
    Reach demoDir (initState 2 false) stA5 ∧
    Step demoDir (Ev.acquireClientBusy 1) stA5 stA6 ∧
    (stA5.procs 1).infoLogs = 1 ∧
    (stA5.procs 1).pc = PC.acquireClient ∧
    (stA5.procs 1).blocking = false ∧
    (stA6.procs 1).infoLogs = 2 ∧
    (stA6.procs 1).blocking = true ∧
    (stA6.procs 1).pc = PC.loopTop :=
  ⟨reachA5, stepA6, by decide, by decide, by decide, by decide, by decide, by decide⟩

/-- C2 counterexample: with a server already holding the server lock, the
coordination attempt returns the `FAILURE` exit code — not an ordinary
non-error exit as the claim states.  (The warning and the absence of a
launcher invocation do hold.) -/
theorem already_running_returns_failure :
    Reach demoDir (initState 1 true) stB3 ∧
    (stB3.procs 0).pc = PC.done ExitCode.FAILURE ∧
    ExitCode.FAILURE ≠ ExitCode.SUCCESS ∧
    (stB3.procs 0).warnings = [demoDir] ∧
    (stB3.procs 0).launches = 0 :=
  ⟨reachB3, by decide, by decide, by decide, by decide⟩

/-- C2 (amended): in every run that begins with the server lock held by a
running server, no process ever invokes the launcher, and every process
that finishes `_run` returns the `FAILURE` exit code having logged exactly
one warning naming the project directory. -/
theorem already_running_outcome {n : Nat} {sd : String} {s : SysState n}
    (hr : Reach sd (initState n true) s) (i : Fin n) :
    (s.procs i).launches = 0 ∧
    ∀ c, (s.procs i).pc = PC.done c →
      c = ExitCode.FAILURE ∧ (s.procs i).warnings = [sd] := by
  have inv := serverHeldInv_reach hr
  refine ⟨inv.launch0 i, fun c hc => ?_⟩
  rcases inv.pcs i with h | h | h | h <;> rw [hc] at h
  · cases h
  · cases h
  · cases h
  · injection h with h2
    subst h2
    exact ⟨rfl, inv.warn_done i hc⟩

/-- C2 witness: the amended theorem applied to the concrete run B. -/
theorem already_running_outcome_witness :
    Reach demoDir (initState 1 true) stB3 ∧
    (stB3.procs 0).launches = 0 ∧
    (stB3.procs 0).warnings = [demoDir] :=
  ⟨reachB3, (already_running_outcome reachB3 0).1,
    ((already_running_outcome reachB3 0).2 ExitCode.FAILURE (by decide)).2⟩

/-- C3 counterexample: an OS-level (`ResourceUnavailable`) failure of the
client-lock acquisition is caught by the generic `except OSError` handler,
which logs the waiting notice and loops: afterwards the process is back at
the top of the loop, not in a propagated-failure state, so the failure was
retried rather than surfaced. -/
theorem unavailable_not_fatal :
    Reach demoDir (initState 1 false) stC1 ∧
    (stC1.procs 0).pc = PC.acquireClient ∧
    Step demoDir (Ev.acquireClientUnavail 0) stC1 stC2 ∧
    (stC2.procs 0).pc = PC.loopTop ∧
    (stC2.procs 0).pc ≠ PC.fatal ∧
    (stC2.procs 0).infoLogs = 1 ∧
    (stC2.procs 0).launches = 0 :=
  ⟨reachC1, by decide, stepC2, by decide, by decide, by decide, by decide⟩

/-- C3 (amended): any `ResourceUnavailable` failure of the client-lock
acquisition is treated exactly like contention: the handler logs one
notice and restarts the loop; nothing is propagated, the locks are
untouched and the launcher is not invoked in that step. -/
theorem unavailable_on_start_lock_is_retried {n : Nat} {sd : String}
    {s s' : SysState n} {i : Fin n}
    (hstep : Step sd (Ev.acquireClientUnavail i) s s') :
    (s'.procs i).pc = PC.loopTop ∧
    (s'.procs i).blocking = true ∧
    (s'.procs i).infoLogs = (s.procs i).infoLogs + 1 ∧
    (s'.procs i).launches = (s.procs i).launches ∧
    s'.clientLock = s.clientLock ∧
    s'.serverLock = s.serverLock := by
  cases hstep with
  | acquireClientUnavail _ i hpc =>
      refine ⟨?_, ?_, ?_, ?_, rfl, rfl⟩ <;> rw [setProc_procs_self] <;> rfl

/-- C3 witness: the amended theorem applied to the concrete failing step
of run C. -/
theorem unavailable_on_start_lock_is_retried_witness :
    (stC2.procs 0).pc = PC.loopTop ∧
    (stC2.procs 0).blocking = true ∧
    (stC2.procs 0).infoLogs = (stC1.procs 0).infoLogs + 1 ∧
    (stC2.procs 0).launches = (stC1.procs 0).launches ∧
    stC2.clientLock = stC1.clientLock ∧
    stC2.serverLock = stC1.serverLock :=
  unavailable_on_start_lock_is_retried stepC2

/-- Mutual exclusion in the shared-working-directory semantics: when
every attempt runs from one working directory (so all contend on one
client-lock file), at most one process at a time is inside the
probe-and-launch section.  This is the same-directory special case; the
claim-level statements about arbitrary attempts live in the
working-directory-aware semantics below. -/
theorem start_lock_mutual_exclusion {n : Nat} {sd : String}
    {serverRunning : Bool} {s : SysState n}
    (hr : Reach sd (initState n serverRunning) s)
    (i j : Fin n) (hi : InCrit ((s.procs i).pc)) (hj : InCrit ((s.procs j).pc)) :
    i = j := by
  have inv := lockInv_reach hr
  have h1 := inv.crit_owns i hi
  have h2 := inv.crit_owns j hj
  rw [h1] at h2
  exact Option.some.inj h2

/-- The shared-working-directory mutual-exclusion lemma applied at the
reachable state `stA2` in which process 0 is probing. -/
theorem start_lock_mutual_exclusion_witness :
    Reach demoDir (initState 2 false) stA2 ∧
    InCrit ((stA2.procs 0).pc) ∧
    (0 : Fin 2) = 0 :=
  ⟨reachA2, by decide,
    start_lock_mutual_exclusion reachA2 0 0 (by decide) (by decide)⟩

/-- C4 counterexample: per-project mutual exclusion fails.  The start
lock is the relative path `.pyre/client.lock`, resolved against each
process's working directory, so two attempts against the same project
(`/proj`) launched from different working directories (`/cwdA`, `/cwdB`)
acquire different lock files: in run W both processes are inside the
probe-and-launch section at the same reachable state `stW8`, and by
`stW12` both have invoked the launcher for the same project. -/
theorem same_project_attempts_not_serialized :
    demoCwd 0 ≠ demoCwd 1 ∧
    clientLockFile (demoCwd 0) ≠ clientLockFile (demoCwd 1) ∧
    WReach demoDir demoCwd (winit 2 false) stW8 ∧
    InCrit ((stW8.procs 0).pc) ∧
    InCrit ((stW8.procs 1).pc) ∧
    (0 : Fin 2) ≠ (1 : Fin 2) ∧
    WReach demoDir demoCwd (winit 2 false) stW12 ∧
    (stW12.procs 0).launches = 1 ∧
    (stW12.procs 1).launches = 1 :=
  ⟨by decide, by decide, wreach8, by decide, by decide, by decide, wreach12,
    by decide, by decide⟩

/-- C4 (amended): the start lock serializes attempts per working
directory, not per project.  In the working-directory-aware semantics,
any two processes that run from the same working directory (and hence
contend on the same resolved client-lock file) and are both inside the
probe-and-launch section coincide: their start-lock-held intervals are
pairwise disjoint, so at most one of them at a time executes the
server-lock probe, flag assembly and launcher invocation. -/
theorem same_directory_attempts_serialized {n : Nat} {sd : String}
    {cwd : Fin n → String} {serverRunning : Bool} {s : WSysState n}
    (hr : WReach sd cwd (winit n serverRunning) s) (i j : Fin n)
    (hcwd : cwd i = cwd j)
    (hi : InCrit ((s.procs i).pc)) (hj : InCrit ((s.procs j).pc)) :
    i = j := by
  have h1 := wcritOwns_reach hr i hi
  have h2 := wcritOwns_reach hr j hj
  rw [hcwd] at h1
  rw [h1] at h2
  exact Option.some.inj h2

/-- C4 witness: the amended theorem applied at the reachable state `stW2`
of run W, in which process 0 is probing. -/
theorem same_directory_attempts_serialized_witness :
    WReach demoDir demoCwd (winit 2 false) stW2 ∧
    InCrit ((stW2.procs 0).pc) ∧
    (0 : Fin 2) = 0 :=
  ⟨wreach2, by decide,
    same_directory_attempts_serialized wreach2 0 0 rfl (by decide) (by decide)⟩

/-- C5: the coordinator holds the server lock only inside the probe
itself (the `pass` body of the inner `with`): in every reachable state, if
a process holds the server lock it is at the probe point, so at flag
assembly and launcher invocation the server lock has been released and no
finished attempt leaves a dangling hold. -/
theorem server_lock_held_only_while_probing {n : Nat} {sd : String}
    {serverRunning : Bool} {s : SysState n}
    (hr : Reach sd (initState n serverRunning) s) (i : Fin n)
    (hh : s.serverLock = some (Owner.proc i)) :
    (s.procs i).pc = PC.probeHeld :=
  (lockInv_reach hr).server_probe i hh

/-- C5 witness: at the end of run A, process 0 has completed a full start
(`done SUCCESS`) and process 1's subsequent probe has succeeded again —
the first probe left no dangling hold — with the theorem applied to the
resulting hold. -/
theorem server_lock_held_only_while_probing_witness :
    Reach demoDir (initState 2 false) stA13 ∧
    stA13.serverLock = some (Owner.proc 1) ∧
    (stA10.procs 0).pc = PC.done ExitCode.SUCCESS ∧
    (stA13.procs 1).pc = PC.probeHeld :=
  ⟨reachA13, by decide, by decide,
    server_lock_held_only_while_probing reachA13 1 (by decide)⟩

/-- C6: the `-filter-directories` flag is emitted iff the set of analysis
directories has more than one element and contains the project root
(`len(filter_directories) > 1 and issuperset({source_directory})`), its
value is the comma-join of the set's elements in their (stable) iteration
order, and it is omitted when the scope is exactly the project root or
empty.  The segment is spliced into the assembled flag list. -/
theorem filter_directories_flag_iff (sd : String) (fd : List String)
    (hnd : fd.Nodup) :
    (filterDirectoriesFlags sd fd ≠ [] ↔ 1 < fd.length ∧ sd ∈ fd) ∧
    (1 < fd.length ∧ sd ∈ fd →
      filterDirectoriesFlags sd fd = ["-filter-directories", commaJoin fd]) ∧
    filterDirectoriesFlags sd [sd] = [] ∧
    filterDirectoriesFlags sd [] = [] ∧
    ∀ (terminal no_watchman : Bool) (cfg : Configuration) (base : List String),
      filterDirectoriesFlags sd fd <:+:
        startFlags ⟨sd, terminal, no_watchman⟩ cfg base fd := by
  have hcond : (1 < fd.length ∧ [sd] ⊆ fd) ↔ (1 < fd.length ∧ sd ∈ fd) := by
    simp [List.cons_subset]
  refine ⟨?_, ?_, ?_, ?_, ?_⟩
  · by_cases h : 1 < fd.length ∧ sd ∈ fd
    · rw [filterDirectoriesFlags, if_pos (hcond.mpr h)]
      simp [h]
    · rw [filterDirectoriesFlags, if_neg (fun hx => h (hcond.mp hx))]
      simp [h]
  · intro h
    rw [filterDirectoriesFlags, if_pos (hcond.mpr h)]
  · rw [filterDirectoriesFlags, if_neg]
    rintro ⟨h1, _⟩
    simp at h1
  · rfl
  · intro terminal no_watchman cfg base
    exact ⟨base, watchmanFlags no_watchman ++ terminalFlags terminal ++
      coreFlags cfg.number_of_workers cfg.typeshed cfg.version_hash ++
      searchPathFlags cfg.search_path, by simp [startFlags, List.append_assoc]⟩

/-- C6 witness: the theorem applied to the two-directory scope
`["/a", "/b"]` with project root `"/a"` (flag emitted with value
`"/a,/b"`) and to the root-only scope (flag omitted). -/
theorem filter_directories_flag_iff_witness :
    (["/a", "/b"] : List String).Nodup ∧
    filterDirectoriesFlags "/a" ["/a", "/b"] = ["-filter-directories", "/a,/b"] ∧
    filterDirectoriesFlags "/a" ["/a"] = [] :=
  ⟨by decide,
    ((filter_directories_flag_iff "/a" ["/a", "/b"] (by decide)).2.1
      (by decide)).trans (by decide),
    (filter_directories_flag_iff "/a" ["/a"] (by decide)).2.2.1⟩

/-- C7: the watchman flag is present unless watchman is disabled, the
worker-count, typeshed and expected-binary-version flags are always
present, and the search-path flag appears exactly for a non-empty
configured search path, with the comma-joined list as its value. -/
theorem optional_and_mandatory_flags (args : StartArgs) (cfg : Configuration)
    (base fd : List String) :
    "-workers" ∈ startFlags args cfg base fd ∧
    "-typeshed" ∈ startFlags args cfg base fd ∧
    "-expected-binary-version" ∈ startFlags args cfg base fd ∧
    (args.no_watchman = false → "-use-watchman" ∈ startFlags args cfg base fd) ∧
    watchmanFlags true = [] ∧
    (∀ sp : List String, sp ≠ [] →
      searchPathFlags sp = ["-search-path", commaJoin sp]) ∧
    searchPathFlags [] = [] ∧
    commaJoin ["x", "y"] = "x,y" := by
  refine ⟨?_, ?_, ?_, ?_, rfl, ?_, rfl, rfl⟩
  · simp [startFlags, coreFlags]
  · simp [startFlags, coreFlags]
  · simp [startFlags, coreFlags]
  · intro h
    simp [startFlags, watchmanFlags, h]
  · intro sp h
    rw [searchPathFlags, if_neg h]

/-- C7 witness: the theorem applied at a concrete configuration:
watchman enabled yields the watchman flag, the worker flag is present,
and search path `["x", "y"]` yields the value `"x,y"`. -/
theorem optional_and_mandatory_flags_witness :
    "-workers" ∈ startFlags ⟨"/proj", false, false⟩ ⟨some 4, some "/ts", some "h", []⟩ [] [] ∧
    "-use-watchman" ∈ startFlags ⟨"/proj", false, false⟩ ⟨some 4, some "/ts", some "h", []⟩ [] [] ∧
    searchPathFlags ["x", "y"] = ["-search-path", "x,y"] := by
  have t := optional_and_mandatory_flags ⟨"/proj", false, false⟩
    ⟨some 4, some "/ts", some "h", []⟩ [] []
  exact ⟨t.1, t.2.2.2.1 rfl,
    (t.2.2.2.2.2.1 ["x", "y"] (by decide)).trans (by decide)⟩

/-- C8 counterexample: for project directory `"/proj"` the two lock files
do not reside under one project-relative state directory: the server lock
is at `/proj/.pyre/server/server.lock`, but the client (start) lock is the
fixed relative path `.pyre/client.lock`, which the OS resolves against the
working directory — e.g. to `/home/user/.pyre/client.lock`, outside the
project's state directory. -/
theorem lock_paths_not_same_state_dir :
    serverLockPath "/proj" = "/proj/.pyre/server/server.lock" ∧
    clientLockPath ≠ osPathJoin (osPathJoin "/proj" ".pyre") "client.lock" ∧
    resolveAgainst "/home/user" clientLockPath = "/home/user/.pyre/client.lock" ∧
    resolveAgainst "/home/user" clientLockPath ≠ "/proj/.pyre/client.lock" :=
  ⟨by decide, by decide, by decide, by decide⟩

/-- C8 (amended): the server lock does live one level under a `server`
subdirectory of the project's state directory
(`<project>/.pyre/server/server.lock`), but the start lock is the fixed
relative path `.pyre/client.lock`, anchored at the process's working
directory; the two share the same state directory exactly when the
working directory is the project directory. -/
theorem lock_paths_anchoring (sdir cwd : String)
    (hs1 : sdir ≠ "") (hs2 : sdir.data.getLast? ≠ some '/')
    (hc1 : cwd ≠ "") (hc2 : cwd.data.getLast? ≠ some '/') :
    serverLockPath sdir = sdir ++ "/.pyre/server/server.lock" ∧
    clientLockPath = ".pyre/client.lock" ∧
    resolveAgainst cwd clientLockPath = cwd ++ "/.pyre/client.lock" ∧
    (resolveAgainst cwd clientLockPath = sdir ++ "/.pyre/client.lock" ↔
      cwd = sdir) := by
  refine ⟨serverLockPath_expand sdir hs1 hs2, rfl,
    clientLockPath_resolve cwd hc1 hc2, ?_⟩
  rw [clientLockPath_resolve cwd hc1 hc2]
  constructor
  · intro h
    have hd := congrArg String.data h
    rw [String.data_append, String.data_append] at hd
    exact String.ext (List.append_cancel_right hd)
  · intro h
    rw [h]

/-- C8 witness: the amended theorem applied at project `"/proj"` and
working directory `"/home/user"`. -/
theorem lock_paths_anchoring_witness :
    serverLockPath "/proj" = "/proj/.pyre/server/server.lock" ∧
    resolveAgainst "/home/user" clientLockPath = "/home/user/.pyre/client.lock" ∧
    ¬ resolveAgainst "/home/user" clientLockPath = "/proj/.pyre/client.lock" := by
  have t := lock_paths_anchoring "/proj" "/home/user"
    (by decide) (by decide) (by decide) (by decide)
  exact ⟨t.1, t.2.2.1, fun h => absurd (t.2.2.2.mp h) (by decide)⟩

/-- C9 counterexample: not every `OSError` inside the start-lock scope
reaches the outer handler.  An OS-level error raised by the server-lock
probe itself — while the client lock is held (`stD2.clientLock = some 0`)
— is caught by the *inner* handler: `_run` returns `FAILURE` after the
server-exists warning; no waiting notice is logged (`infoLogs = 0`) and
the protocol does not restart (`pc ≠ loopTop`). -/
theorem os_error_in_probe_returns_failure :
    Reach demoDir (initState 1 false) stD2 ∧
    (stD2.procs 0).pc = PC.probe ∧
    stD2.clientLock = some 0 ∧
    Step demoDir (Ev.probeUnavail 0) stD2 stE3 ∧
    (stE3.procs 0).pc = PC.done ExitCode.FAILURE ∧
    (stE3.procs 0).pc ≠ PC.loopTop ∧
    (stE3.procs 0).infoLogs = 0 ∧
    (stE3.procs 0).warnings = [demoDir] :=
  ⟨reachD2, by decide, by decide, stepE3, by decide, by decide, by decide,
    by decide⟩

/-- C9 (amended): an `OSError` raised while the start lock is held and
outside the inner probe `try` — from flag assembly or configuration
access (`buildOSError`) or from the launcher call (`callOSError`) — is
caught by the outer handler: the client lock is released by scope exit,
the "waiting on the pyre client lock" notice is logged, and the process
restarts the protocol from the top of the loop instead of propagating the
error or finishing.  (An `OSError` from the probe itself is instead taken
by the inner handler and returns `FAILURE`; see the counterexample.) -/
theorem os_error_under_start_lock_restarts {n : Nat} {sd : String}
    {s s' : SysState n} {i : Fin n}
    (hstep : Step sd (Ev.buildOSError i) s s' ∨ Step sd (Ev.callOSError i) s s') :
    (s'.procs i).pc = PC.loopTop ∧
    (s'.procs i).blocking = true ∧
    (s'.procs i).infoLogs = (s.procs i).infoLogs + 1 ∧
    s'.clientLock = none ∧
    (s'.procs i).pc ≠ PC.fatal ∧
    ∀ c, (s'.procs i).pc ≠ PC.done c := by
  rcases hstep with h | h
  · cases h with
    | buildOSError _ i hpc =>
        refine ⟨?_, ?_, ?_, rfl, ?_, fun c => ?_⟩ <;>
          rw [setProc_procs_self] <;> simp [exceptClient]
  · cases h with
    | callOSError _ i hpc =>
        refine ⟨?_, ?_, ?_, rfl, ?_, fun c => ?_⟩ <;>
          rw [setProc_procs_self] <;> simp [exceptClient]

/-- C9 witness: the theorem applied to the concrete `OSError` raised
during flag assembly in run D. -/
theorem os_error_under_start_lock_restarts_witness :
    (stD5.procs 0).pc = PC.loopTop ∧
    (stD5.procs 0).infoLogs = (stD4.procs 0).infoLogs + 1 ∧
    stD5.clientLock = none ∧
    (stD5.procs 0).pc ≠ PC.fatal := by
  have t := os_error_under_start_lock_restarts (Or.inl stepD5)
  exact ⟨t.1, t.2.2.1, t.2.2.2.1, t.2.2.2.2.1⟩

/-- C10: the worker-count, typeshed and expected-binary-version values go
through an unconditional `str(...)`, so an absent (`None`) configuration
value yields the flag with the literal string value `"None"` instead of
omitting the flag or failing; the segment still appears in the assembled
flag list. -/
theorem absent_config_values_become_none_strings (args : StartArgs)
    (base fd : List String) :
    pyStrOptInt none = "None" ∧
    pyStrOptString none = "None" ∧
    coreFlags none none none =
      ["-workers", "None", "-typeshed", "None", "-expected-binary-version", "None"] ∧
    coreFlags none none none <:+:
      startFlags args ⟨none, none, none, []⟩ base fd := by
  refine ⟨rfl, rfl, rfl, ?_⟩
  exact ⟨base ++ filterDirectoriesFlags args.source_directory fd ++
      watchmanFlags args.no_watchman ++ terminalFlags args.terminal,
    searchPathFlags [], by simp [startFlags, List.append_assoc]⟩

/-- C10 witness: the theorem applied at a concrete argument record. -/
theorem absent_config_values_become_none_strings_witness :
    coreFlags none none none =
      ["-workers", "None", "-typeshed", "None", "-expected-binary-version", "None"] ∧
    coreFlags none none none <:+:
      startFlags ⟨"/proj", false, false⟩ ⟨none, none, none, []⟩ [] [] := by
  have t := absent_config_values_become_none_strings ⟨"/proj", false, false⟩ [] []
  exact ⟨t.2.2.1, t.2.2.2⟩

end PyreStart
